import Mathlib

/-!
Shallow embedding of `torch/csrc/autograd/profiler_kineto.cpp` (the Kineto
profiler bridge): data model, correlation-id allocator, instrumentation
callbacks, and the prepare/enable/disable lifecycle, together with proofs
about the specified properties.

External collaborators (the Kineto backend, the clock, call-stack and shape
extractors, the legacy profiler base class) are not part of the source file;
they are modelled as an explicit environment record, faithful to the
interface contracts stated in the specification.
-/

namespace ProfilerKineto

/-- Modelled from the spec: the profiler mode enum `ProfilerState` (the header
declaring it is not part of the source file); the source only distinguishes
`KINETO` from everything else. -/
inductive ProfilerState where
  | Disabled
  | CPU
  | CUDA
  | NVTX
  | KINETO
deriving DecidableEq, Repr

/-- Modelled from the spec: the requested high-level activity categories
(the header declaring `ActivityType` is not part of the source file); the
source checks `CPU` and `CUDA` and has a commented-out `CUDA_RUNTIME` case. -/
inductive ActivityType where
  | CPU
  | CUDA
  | CUDA_RUNTIME
deriving DecidableEq, Repr

namespace libkineto

/-- The backend activity categories named by `prepareProfiler`
(`libkineto::ActivityType`). -/
inductive ActivityType where
  | GPU_MEMCPY
  | GPU_MEMSET
  | CONCURRENT_KERNEL
  | EXTERNAL_CORRELATION
  | CUDA_RUNTIME
deriving DecidableEq, Repr

end libkineto

/-- Modelled from the spec: execution scope tag of a record function
(`at::RecordScope`); the source only distinguishes `BACKWARD_FUNCTION`. -/
inductive RecordScope where
  | FUNCTION
  | BACKWARD_FUNCTION
  | TORCHSCRIPT_FUNCTION
  | USER_SCOPE
deriving DecidableEq, Repr

/-- Modelled from the spec: `c10::DeviceType`; the source only uses `CPU`. -/
inductive DeviceType where
  | CPU
  | CUDA
deriving DecidableEq, Repr

/-- The correlation-id allocator `next_correlation_id`: a process-wide
`uint64` counter initialised to `1`; each call returns the current value and
stores the incremented value (wrapping modulo `2 ^ 64`, as unsigned
arithmetic does). The state is the stored counter value. -/
def next_correlation_id (c : Nat) : Nat × Nat :=
  (c, (c + 1) % 2 ^ 64)

/-- Initial value of the allocator counter (`corr_id_ {1}`). -/
def corrInit : Nat := 1

/-- Counter value after `n` calls to `next_correlation_id`, starting from
process start. -/
def corrIter : Nat → Nat
  | 0 => corrInit
  | n + 1 => (next_correlation_id (corrIter n)).2

/-- The id returned by the `n`-th call (0-indexed) to `next_correlation_id`
within one process run. -/
def corrId (n : Nat) : Nat := (next_correlation_id (corrIter n)).1

theorem corrIter_eq (n : Nat) : corrIter n = (1 + n) % 2 ^ 64 := by
  induction n with
  | zero =>
    show corrInit = (1 + 0) % 2 ^ 64
    rw [corrInit, Nat.add_zero, Nat.mod_eq_of_lt (by norm_num)]
  | succ n ih =>
    show (next_correlation_id (corrIter n)).2 = (1 + (n + 1)) % 2 ^ 64
    rw [next_correlation_id, ih]
    have h1 : 1 + (n + 1) = (1 + n) + 1 := by ring
    rw [h1, Nat.add_mod (1 + n) 1, Nat.mod_eq_of_lt (show 1 < 2 ^ 64 by norm_num)]

theorem corrId_eq (n : Nat) : corrId n = (1 + n) % 2 ^ 64 := by
  rw [corrId, next_correlation_id, corrIter_eq]

/-- The string rendering of a per-argument shape list, `shapesToStr`:
open bracket, elements separated by `", "`, close bracket, at both nesting
levels (the two source loops have identical structure). -/
def strListJoin {α : Type} (g : α → String) (xs : List α) : String :=
  (xs.enum.foldl
    (fun oss p => oss ++ (if 0 < p.1 then ", " else "") ++ g p.2) "[") ++ "]"

def shapesToStr (shapes : List (List Int)) : String :=
  strListJoin (fun shape => strListJoin (fun d => toString d) shape) shapes

/-- Specification-side rendering: elements joined with `", "` separators. -/
def joinComma : List String → String
  | [] => ""
  | [s] => s
  | s :: s₂ :: rest => s ++ ", " ++ joinComma (s₂ :: rest)

/-- Tail form of `joinComma`: every element preceded by `", "`. -/
def commaPrefixed : List String → String
  | [] => ""
  | s :: rest => ", " ++ s ++ commaPrefixed rest

theorem joinComma_cons (s : String) (rest : List String) :
    joinComma (s :: rest) = s ++ commaPrefixed rest := by
  induction rest generalizing s with
  | nil => simp [joinComma, commaPrefixed]
  | cons t rest ih =>
    rw [joinComma, ih, commaPrefixed]
    simp only [String.append_assoc]

theorem strListJoin_foldl {α : Type} (g : α → String) (xs : List α) (n : Nat)
    (hn : 0 < n) (acc : String) :
    List.foldl (fun oss p => oss ++ (if 0 < p.1 then ", " else "") ++ g p.2) acc
      (List.enumFrom n xs) = acc ++ commaPrefixed (xs.map g) := by
  induction xs generalizing n acc with
  | nil => simp [commaPrefixed]
  | cons x xs ih =>
    rw [List.enumFrom]
    rw [List.foldl, if_pos hn, ih (n + 1) (Nat.succ_pos n)]
    rw [List.map, commaPrefixed]
    rw [← String.append_assoc, ← String.append_assoc]

theorem strListJoin_eq {α : Type} (g : α → String) (xs : List α) :
    strListJoin g xs = "[" ++ joinComma (xs.map g) ++ "]" := by
  cases xs with
  | nil => rfl
  | cons x xs =>
    rw [strListJoin, List.enum]
    rw [List.enumFrom, List.foldl, if_neg (by omega)]
    rw [strListJoin_foldl g xs 1 Nat.one_pos]
    rw [List.map, joinComma_cons]
    rw [String.append_empty, ← String.append_assoc]

/-- Profiling options snapshot (`ProfilerConfig`): mode, whether to record
input shapes, whether to capture call stacks. -/
structure ProfilerConfig where
  state : ProfilerState
  report_input_shapes : Bool := false
  with_stack : Bool := false
deriving DecidableEq, Repr

/-- Modelled from the spec: the data an `at::RecordFunction` handle exposes to
the callbacks (name, scope, sequence number, forward thread id) together with
the result of the external shape extractor `inputSizes(fn)` for this
invocation. -/
structure RecordFunction where
  name : String
  scope : RecordScope := RecordScope.FUNCTION
  seqNr : Int := -1
  fwdThreadId : Nat := 0
  inputSizes : List (List Int) := []
deriving DecidableEq, Repr

/-- The per-invocation observer context (`KinetoObserverContext`), created by
the entry callback and consumed by the exit callback. A default-constructed
context (the disabled marker) carries no shapes and no stack. -/
structure KinetoObserverContext where
  startUs : Nat := 0
  correlationId : Nat := 0
  startThreadId : Nat := 0
  endThreadId : Nat := 0
  sequenceNr : Int := -1
  fwdThreadId : Nat := 0
  recFunScope : RecordScope := RecordScope.FUNCTION
  shapes : Option (List (List Int)) := none
  stack : Option (List String) := none
deriving DecidableEq, Repr

/-- The per-op record shipped to the backend trace buffer
(`libkineto::ClientTraceActivity`). -/
structure ClientTraceActivity where
  startTime : Nat := 0
  endTime : Nat := 0
  opType : String := ""
  device : Int := 0
  correlation : Nat := 0
  inputDims : String := ""
  threadId : Nat := 0
deriving DecidableEq, Repr

/-- The durable captured activity record (`KinetoEvent`); field names follow
the source members, setter methods below follow the source accessors. -/
structure KinetoEvent where
  name_ : String := ""
  device_index_ : Int := 0
  start_us_ : Nat := 0
  duration_us_ : Nat := 0
  correlation_id_ : Nat := 0
  start_thread_id_ : Nat := 0
  end_thread_id_ : Nat := 0
  sequence_nr_ : Int := -1
  fwd_thread_id_ : Nat := 0
  scope_ : RecordScope := RecordScope.FUNCTION
  device_type_ : DeviceType := DeviceType.CPU
  shapes_ : Option (List (List Int)) := none
  stack_ : Option (List String) := none
deriving DecidableEq, Repr

/-- `KinetoEvent::activity`: copies name, device id, timestamp, duration and
correlation id from the trace activity. Modelled from the spec for the
`libkineto::TraceActivity` accessors: `name()` is the op type, `deviceId()`
the device, `timestamp()` the start time, `duration()` the end minus start
time, `correlationId()` the correlation field. -/
def KinetoEvent.activity (e : KinetoEvent) (a : ClientTraceActivity) : KinetoEvent :=
  { e with
    name_ := a.opType
    device_index_ := a.device
    start_us_ := a.startTime
    duration_us_ := a.endTime - a.startTime
    correlation_id_ := a.correlation }

def KinetoEvent.startThreadId (e : KinetoEvent) (v : Nat) : KinetoEvent :=
  { e with start_thread_id_ := v }

def KinetoEvent.endThreadId (e : KinetoEvent) (v : Nat) : KinetoEvent :=
  { e with end_thread_id_ := v }

def KinetoEvent.sequenceNr (e : KinetoEvent) (v : Int) : KinetoEvent :=
  { e with sequence_nr_ := v }

def KinetoEvent.fwdThreadId (e : KinetoEvent) (v : Nat) : KinetoEvent :=
  { e with fwd_thread_id_ := v }

def KinetoEvent.scope (e : KinetoEvent) (v : RecordScope) : KinetoEvent :=
  { e with scope_ := v }

def KinetoEvent.deviceType (e : KinetoEvent) (v : DeviceType) : KinetoEvent :=
  { e with device_type_ := v }

def KinetoEvent.shapes (e : KinetoEvent) (v : List (List Int)) : KinetoEvent :=
  { e with shapes_ := some v }

def KinetoEvent.stack (e : KinetoEvent) (v : List String) : KinetoEvent :=
  { e with stack_ := some v }

/-- The per-session CPU trace buffer handed to the backend
(`libkineto::CpuTraceBuffer`): the session span and the recorded ops. -/
structure CpuTraceBuffer where
  spanStartTime : Nat := 0
  spanEndTime : Nat := 0
  spanName : String := ""
  gpuOpCount : Int := 0
  ops : List ClientTraceActivity := []
deriving DecidableEq, Repr

/-- The per-session profiler state (`KinetoThreadLocalState`): configuration,
the accumulated `kineto_events_` buffer, the CPU trace buffer, the callback
handle, plus the legacy-event list of the `ProfilerThreadLocalState` base
class (modelled from the spec: marks recorded via `mark` and returned by
`consolidate`). In the source `cpu_trace` is a unique pointer assigned inside
`enableProfiler` before any use; the model creates the state with the buffer
in place. -/
structure KinetoThreadLocalState where
  config : ProfilerConfig
  kineto_events : List KinetoEvent := []
  cpu_trace : CpuTraceBuffer := {}
  callbackHandle : Option Nat := none
  legacy_events : List String := []
deriving DecidableEq, Repr

/-- `KinetoThreadLocalState::events()` exactly as in the source: the body is
marked `// tbd` and returns an empty vector. -/
def KinetoThreadLocalState.events (_ : KinetoThreadLocalState) :
    List (List KinetoEvent) :=
  []

/-- Modelled from the spec: legacy-format event consolidation
(`ProfilerThreadLocalState::consolidate`, excluded collaborator) returns the
legacy events recorded so far. -/
def KinetoThreadLocalState.consolidate (st : KinetoThreadLocalState) :
    List String :=
  st.legacy_events

/-- The final handoff object (`ProfilerResult`): consolidated event lists,
legacy events, and the backend trace handle (opaque, guaranteed non-null). -/
structure ProfilerResult where
  events : List (List KinetoEvent)
  legacy_events : List String
  trace : Unit
deriving DecidableEq, Repr

/-- Modelled from the spec: the external collaborators, fixed for a run — the
monotonic clock `nowMicroseconds` (indexed by successive reads), the current
record-function thread id, the OS thread id (`pthread_self`), the prepared
call stacks returned by `prepareCallstack` over the primary
(`jit::currentCallstack`) and alternate (`jit::tracer::pythonCallstack`)
extractors, the `callstackStr` formatter, and the handle returned by
`libkineto::api().stopTrace()` (`none` models a null handle). -/
structure Env where
  clock : Nat → Nat
  curThreadId : Nat := 0
  osThreadId : Nat := 0
  prepare_current : List String := []
  prepare_python : List String := []
  callstackStr : List String → List String := fun l => l
  stopTraceResult : Option Unit := some ()

/-- The mutable world threaded through the model: the clock read index, the
correlation-allocator counter, the thread-local `PROFILER_STATE` debug-info
slot, whether the thread-local callbacks are registered, whether the backend
trace is active, the backend correlation-id stack, and the CPU trace buffers
transferred to the backend. -/
structure World where
  tick : Nat := 0
  corr : Nat := corrInit
  slot : Option KinetoThreadLocalState := none
  callbacksRegistered : Bool := false
  traceActive : Bool := false
  corrStack : List Nat := []
  transferred : List CpuTraceBuffer := []
deriving DecidableEq, Repr

/-- Modelled from the spec: `getTimeUs` reads the monotonic clock; each call
consumes one read index. -/
def getTimeUs (env : Env) (w : World) : Nat × World :=
  (env.clock w.tick, { w with tick := w.tick + 1 })

/-- `getProfilerTLSState`: the active Kineto state on the thread-local
`PROFILER_STATE` slot, if any. -/
def getProfilerTLSState (w : World) : Option KinetoThreadLocalState :=
  w.slot

/-- `KinetoThreadLocalState::reportClientActivity`: builds the
`ClientTraceActivity` (end time read from the clock), appends a `KinetoEvent`
built from it and the observer context to `kineto_events_`, and appends the
activity to `cpu_trace->ops`, all in one critical section. Returns the
updated state and clock read index. -/
def KinetoThreadLocalState.reportClientActivity (st : KinetoThreadLocalState)
    (env : Env) (tick : Nat) (fn : RecordFunction)
    (ctx : KinetoObserverContext) : KinetoThreadLocalState × Nat :=
  let op : ClientTraceActivity :=
    { startTime := ctx.startUs
      endTime := env.clock tick
      opType := fn.name
      device := 0
      correlation := ctx.correlationId
      inputDims :=
        match ctx.shapes with
        | some s => if s ≠ [] then shapesToStr s else ""
        | none => ""
      threadId := env.osThreadId }
  let ev : KinetoEvent :=
    ((((((({} : KinetoEvent).activity op).startThreadId
        ctx.startThreadId).endThreadId ctx.endThreadId).sequenceNr
        ctx.sequenceNr).fwdThreadId ctx.fwdThreadId).scope
        ctx.recFunScope).deviceType DeviceType.CPU
  let ev :=
    match ctx.shapes with
    | some s => if s ≠ [] then ev.shapes s else ev
    | none => ev
  let ev :=
    match ctx.stack with
    | some s => if s ≠ [] then ev.stack s else ev
    | none => ev
  ({ st with
      kineto_events := st.kineto_events ++ [ev]
      cpu_trace := { st.cpu_trace with ops := st.cpu_trace.ops ++ [op] } },
   tick + 1)

/-- The entry instrumentation callback (first lambda of
`pushProfilingCallbacks`): if no Kineto-mode state is active, return a
default-constructed disabled marker context; otherwise allocate a
correlation id, push it to the backend, and build the observer context
(timestamp, thread id, optional shapes, optional call stack with fallback,
skipped for backward-function scope). -/
def entryCallback (env : Env) (fn : RecordFunction) (w : World) :
    KinetoObserverContext × World :=
  match getProfilerTLSState w with
  | none => ({}, w)
  | some st =>
    if st.config.state = ProfilerState.KINETO then
      let (corr_id, c) := next_correlation_id w.corr
      let w := { w with corr := c, corrStack := corr_id :: w.corrStack }
      let (t, w) := getTimeUs env w
      let ctx : KinetoObserverContext :=
        { startUs := t
          correlationId := corr_id
          startThreadId := env.curThreadId
          shapes :=
            if st.config.report_input_shapes then some fn.inputSizes else none
          sequenceNr := fn.seqNr
          fwdThreadId := fn.fwdThreadId
          recFunScope := fn.scope
          stack :=
            if st.config.with_stack ∧ fn.scope ≠ RecordScope.BACKWARD_FUNCTION
            then
              let cs := env.prepare_current
              let cs := if cs = [] then env.prepare_python else cs
              some (env.callstackStr cs)
            else none }
      (ctx, w)
    else ({}, w)

/-- The exit instrumentation callback (second lambda of
`pushProfilingCallbacks`): if no Kineto-mode state is active, skip recording;
otherwise record the end thread id, report the activity into the state
buffers, and pop the backend correlation id. -/
def exitCallback (env : Env) (fn : RecordFunction)
    (ctx : KinetoObserverContext) (w : World) : World :=
  match getProfilerTLSState w with
  | none => w
  | some st =>
    if st.config.state = ProfilerState.KINETO then
      let ctx := { ctx with endThreadId := env.curThreadId }
      let (st, tick) := st.reportClientActivity env w.tick fn ctx
      { w with slot := some st, tick := tick, corrStack := w.corrStack.tail }
    else w

/-- One instrumented operation: if the callbacks are registered on this
thread, the engine invokes the entry callback and threads the returned
context to the exit callback; otherwise nothing is observed. -/
def runOp (env : Env) (w : World) (fn : RecordFunction) : World :=
  if w.callbacksRegistered then
    let (ctx, w₁) := entryCallback env fn w
    exitCallback env fn ctx w₁
  else w

/-- A sequence of instrumented operations. -/
def runOps (env : Env) (fns : List RecordFunction) (w : World) : World :=
  fns.foldl (runOp env) w

/-- Whether the entry callback of an operation starting in world `w` observes
an active `ProfilerState` in `KINETO` mode (the callback runs only when
registered). -/
def entryObservedActive (w : World) : Bool :=
  w.callbacksRegistered &&
    match w.slot with
    | some st => st.config.state = ProfilerState.KINETO
    | none => false

/-- Number of operations in a run whose entry callback observed an active
Kineto-mode state. -/
def countObserved (env : Env) : World → List RecordFunction → Nat
  | _, [] => 0
  | w, fn :: fns =>
    (if entryObservedActive w then 1 else 0) +
      countObserved env (runOp env w fn) fns

/-- `prepareProfiler`: requires Kineto mode, then translates the requested
activity categories into the backend activity set handed to
`libkineto::api().prepareTrace` (returned here as the modelled effect). -/
def prepareProfiler (config : ProfilerConfig)
    (activities : Finset ActivityType) :
    Except String (Finset libkineto.ActivityType) :=
  if config.state ≠ ProfilerState.KINETO then
    .error "Supported only in Kineto profiler"
  else
    let k : Finset libkineto.ActivityType := ∅
    let k :=
      if ActivityType.CPU ∈ activities then
        insert libkineto.ActivityType.EXTERNAL_CORRELATION
          (insert libkineto.ActivityType.CUDA_RUNTIME k)
      else k
    let k :=
      if ActivityType.CUDA ∈ activities then
        insert libkineto.ActivityType.GPU_MEMCPY
          (insert libkineto.ActivityType.GPU_MEMSET
            (insert libkineto.ActivityType.CONCURRENT_KERNEL
              (insert libkineto.ActivityType.CUDA_RUNTIME k)))
      else k
    .ok k

/-- `enableProfiler`: checks Kineto mode, a non-empty activity set, and a
free thread-local slot; then creates the session state, pushes it onto the
slot, initialises the trace span (start time, sentinel gpu op count, session
name), registers the callbacks when CPU activity was requested, starts the
backend trace if not active, and records the `__start_profile` mark. -/
def enableProfiler (env : Env) (config : ProfilerConfig)
    (activities : Finset ActivityType) (w : World) : Except String World :=
  if config.state ≠ ProfilerState.KINETO then
    .error "expected KINETO profiler state"
  else if activities = ∅ then
    .error "No activities specified for Kineto profiler"
  else
    match getProfilerTLSState w with
    | some _ => .error "Profiler is already enabled on this thread"
    | none =>
      let (t, w₁) := getTimeUs env w
      let st : KinetoThreadLocalState :=
        { config := config
          kineto_events := []
          cpu_trace :=
            { spanStartTime := t
              spanEndTime := 0
              spanName := "PyTorch Profiler"
              gpuOpCount := -1
              ops := [] }
          callbackHandle :=
            if ActivityType.CPU ∈ activities then some 1 else none
          legacy_events := ["__start_profile"] }
      .ok { w₁ with
              slot := some st
              callbacksRegistered := decide (ActivityType.CPU ∈ activities)
              traceActive := true }

/-- `disableProfiler`: pops the state from the slot (fatal if none present or
mode mismatch), unregisters the callbacks if registered, records the
`__stop_profile` mark, finalises the span end time, transfers the CPU trace
to the backend, stops the trace (fatal on a null handle), and consolidates
events, legacy events and the trace handle into the result. -/
def disableProfiler (env : Env) (w : World) :
    Except String (ProfilerResult × World) :=
  match w.slot with
  | none => .error "Cannot disable Kineto profiler when it is not running"
  | some st =>
    if st.config.state = ProfilerState.KINETO then
      let w₁ :=
        { w with
            slot := none
            callbacksRegistered :=
              if st.callbackHandle.isSome then false
              else w.callbacksRegistered }
      let st := { st with legacy_events := st.legacy_events ++ ["__stop_profile"] }
      let (t, w₂) := getTimeUs env w₁
      let st := { st with cpu_trace := { st.cpu_trace with spanEndTime := t } }
      let w₃ :=
        { w₂ with
            transferred := w₂.transferred ++ [st.cpu_trace]
            traceActive := false }
      match env.stopTraceResult with
      | none => .error "stopTrace returned a null trace handle"
      | some handle =>
        .ok ({ events := st.events
               legacy_events := st.consolidate
               trace := handle }, w₃)
    else .error "Cannot disable Kineto profiler when it is not running"

/-- `kinetoAvailable` with `USE_KINETO` defined. -/
def kinetoAvailable : Bool := true

/-- Whether an `Except` result is a success. -/
def isOk {ε α : Type} : Except ε α → Bool
  | .ok _ => true
  | .error _ => false

/-- A concrete environment for sample runs: identity clock, fixed thread ids,
non-empty prepared call stacks, identity formatter, non-null trace handle. -/
def demoEnv : Env :=
  { clock := fun t => t
    curThreadId := 7
    osThreadId := 7
    prepare_current := ["model.py:10"]
    prepare_python := ["script.py:1"]
    callstackStr := fun l => l
    stopTraceResult := some () }

def demoConfig : ProfilerConfig :=
  { state := ProfilerState.KINETO
    report_input_shapes := true
    with_stack := true }

def demoActivities : Finset ActivityType := {ActivityType.CPU}

def demoW0 : World := {}

def demoFn : RecordFunction :=
  { name := "matmul", inputSizes := [[2, 3], [3, 4]] }

/-- The world after a successful `enableProfiler` on the sample inputs. -/
def demoW1 : World :=
  match enableProfiler demoEnv demoConfig demoActivities demoW0 with
  | .ok w => w
  | .error _ => demoW0

/-- The world after running one sample instrumented operation. -/
def demoW2 : World := runOps demoEnv [demoFn] demoW1

/-- The session state accumulated after the sample operation. -/
def demoSt : KinetoThreadLocalState :=
  demoW2.slot.getD { config := demoConfig }

/-- The result and world of `disableProfiler` on the sample run. -/
def demoDis : ProfilerResult × World :=
  match disableProfiler demoEnv demoW2 with
  | .ok p => p
  | .error _ => ({ events := [], legacy_events := [], trace := () }, demoW0)

/-- C2 counterexample: after `2 ^ 64` allocations the `uint64` counter has
wrapped, so the id returned by the last call is `0`, not strictly greater
than the first id `1`. -/
theorem next_correlation_id_wraps :
    ¬ corrId 0 < corrId (2 ^ 64 - 1) := by
  rw [corrId_eq, corrId_eq]
  norm_num

/-- C2 (amended): within one process run, as long as fewer than `2 ^ 64` ids
have been allocated, the first returned correlation id is `1` and the
returned ids are strictly increasing in allocation order. -/
theorem next_correlation_id_strictly_increasing :
    corrId 0 = 1 ∧
      ∀ m n : Nat, m < n → n ≤ 2 ^ 64 - 2 → corrId m < corrId n := by
  have h64 : (2 : Nat) ^ 64 = 18446744073709551616 := by norm_num
  constructor
  · rw [corrId_eq]; norm_num
  · intro m n hmn hn
    rw [h64] at hn
    rw [corrId_eq, corrId_eq, h64]
    rw [Nat.mod_eq_of_lt (by omega), Nat.mod_eq_of_lt (by omega)]
    omega

/-- C2 witness: the first two allocated ids on concrete calls. -/
theorem next_correlation_id_strictly_increasing_witness :
    corrId 0 < corrId 1 :=
  next_correlation_id_strictly_increasing.2 0 1 (by norm_num) (by norm_num)

/-- C3: `enableProfiler` succeeds exactly when the config mode is `KINETO`,
the activity set is non-empty, and no profiler state occupies the
thread-local slot; in every other case it fails fatally (and, failing, it
returns no world, so no session is created or pushed). -/
theorem enableProfiler_fails_iff (env : Env) (config : ProfilerConfig)
    (activities : Finset ActivityType) (w : World) :
    isOk (enableProfiler env config activities w) =
      (decide (config.state = ProfilerState.KINETO) &&
        !decide (activities = ∅) && w.slot.isNone) := by
  by_cases h1 : config.state = ProfilerState.KINETO <;>
    by_cases h2 : activities = ∅ <;>
      cases hs : w.slot <;>
        simp [enableProfiler, getProfilerTLSState, isOk, h1, h2, hs, getTimeUs]

/-- Inversion of a successful `enableProfiler`: the checks passed and the
resulting world is the pushed session. -/
theorem enableProfiler_ok (env : Env) (config : ProfilerConfig)
    (activities : Finset ActivityType) (w₀ w₁ : World)
    (hen : enableProfiler env config activities w₀ = .ok w₁) :
    w₁ = { w₀ with
        tick := w₀.tick + 1
        slot := some
          { config := config
            kineto_events := []
            cpu_trace :=
              { spanStartTime := env.clock w₀.tick
                spanEndTime := 0
                spanName := "PyTorch Profiler"
                gpuOpCount := -1
                ops := [] }
            callbackHandle :=
              if ActivityType.CPU ∈ activities then some 1 else none
            legacy_events := ["__start_profile"] }
        callbacksRegistered := decide (ActivityType.CPU ∈ activities)
        traceActive := true } := by
  simp only [enableProfiler, getProfilerTLSState, getTimeUs] at hen
  split at hen
  · cases hen
  · split at hen
    · cases hen
    · split at hen
      · cases hen
      · cases hen
        rfl

/-- Inversion of a successful `disableProfiler`: the slot held a Kineto-mode
state, the backend handle was non-null, and the result and final world are
as constructed. -/
theorem disableProfiler_ok (env : Env) (w : World) (r : ProfilerResult)
    (w₂ : World) (h : disableProfiler env w = .ok (r, w₂)) :
    ∃ st, w.slot = some st ∧ st.config.state = ProfilerState.KINETO ∧
      env.stopTraceResult = some () ∧
      r = { events := []
            legacy_events := st.legacy_events ++ ["__stop_profile"]
            trace := () } ∧
      w₂ = { w with
          slot := none
          callbacksRegistered :=
            if st.callbackHandle.isSome then false
            else w.callbacksRegistered
          tick := w.tick + 1
          transferred :=
            w.transferred ++ [{ st.cpu_trace with spanEndTime := env.clock w.tick }]
          traceActive := false } := by
  simp only [disableProfiler, getTimeUs] at h
  split at h
  · cases h
  · rename_i st hst
    split at h
    · split at h
      · cases h
      · rename_i handle hhandle
        cases h
        exact ⟨st, hst, by assumption, by rw [hhandle], rfl, rfl⟩
    · cases h

/-- C4: `disableProfiler` fails fatally when no state occupies the
thread-local slot, or when the occupying state is not in `KINETO` mode; in
particular a second consecutive `disableProfiler` after a successful one
fails. -/
theorem disableProfiler_fails (env : Env) (w : World) :
    (w.slot = none → isOk (disableProfiler env w) = false) ∧
    (∀ st, w.slot = some st → st.config.state ≠ ProfilerState.KINETO →
      isOk (disableProfiler env w) = false) ∧
    (∀ r w', disableProfiler env w = .ok (r, w') →
      isOk (disableProfiler env w') = false) := by
  refine ⟨fun h => by simp [disableProfiler, h, isOk],
          fun st h hne => by simp [disableProfiler, h, hne, isOk],
          fun r w' h => ?_⟩
  obtain ⟨st, _, _, _, _, hw'⟩ := disableProfiler_ok env w r w' h
  subst hw'
  simp [disableProfiler, isOk]

/-- C4 witness: disabling with an empty slot fails, and disabling again
right after a successful disable fails. -/
theorem disableProfiler_fails_witness :
    isOk (disableProfiler demoEnv demoW0) = false ∧
    isOk (disableProfiler demoEnv demoDis.2) = false :=
  ⟨(disableProfiler_fails demoEnv demoW0).1 rfl,
   (disableProfiler_fails demoEnv demoW2).2.2 demoDis.1 demoDis.2 rfl⟩

/-- C5: in Kineto mode, the backend activity set computed by
`prepareProfiler` contains exactly: the external-correlation and
CUDA-runtime categories when CPU activity is requested, plus the
memory-copy, memory-set, concurrent-kernel and CUDA-runtime categories when
CUDA activity is requested, and nothing else. -/
theorem prepareProfiler_activities (config : ProfilerConfig)
    (activities : Finset ActivityType)
    (h : config.state = ProfilerState.KINETO) :
    ∀ k, prepareProfiler config activities = .ok k →
      ∀ a, a ∈ k ↔
        ((ActivityType.CPU ∈ activities ∧
            (a = libkineto.ActivityType.EXTERNAL_CORRELATION ∨
             a = libkineto.ActivityType.CUDA_RUNTIME)) ∨
         (ActivityType.CUDA ∈ activities ∧
            (a = libkineto.ActivityType.GPU_MEMCPY ∨
             a = libkineto.ActivityType.GPU_MEMSET ∨
             a = libkineto.ActivityType.CONCURRENT_KERNEL ∨
             a = libkineto.ActivityType.CUDA_RUNTIME))) := by
  intro k hk a
  simp only [prepareProfiler, h] at hk
  rw [if_neg (by simp)] at hk
  cases hk
  by_cases hcpu : ActivityType.CPU ∈ activities <;>
    by_cases hcuda : ActivityType.CUDA ∈ activities <;>
      · simp [hcpu, hcuda, Finset.mem_insert]
        try tauto

/-- The backend set computed for the sample request. -/
def demoK : Finset libkineto.ActivityType :=
  match prepareProfiler demoConfig demoActivities with
  | .ok k => k
  | .error _ => ∅

/-- C5 witness: a CPU-only request yields a set containing CUDA-runtime. -/
theorem prepareProfiler_activities_witness :
    libkineto.ActivityType.CUDA_RUNTIME ∈ demoK :=
  (prepareProfiler_activities demoConfig demoActivities rfl demoK rfl
      libkineto.ActivityType.CUDA_RUNTIME).mpr
    (Or.inl ⟨by decide, Or.inr rfl⟩)

/-- C7: with call-stack capture configured and an active Kineto-mode state,
the entry callback attaches the formatted primary prepared call stack,
falling back to the alternate one when the primary is empty — unless the
operation's scope is the backward-function scope, in which case no call
stack is attached. -/
theorem entryCallback_stack (env : Env) (fn : RecordFunction) (w : World)
    (st : KinetoThreadLocalState) (hslot : w.slot = some st)
    (hmode : st.config.state = ProfilerState.KINETO)
    (hstack : st.config.with_stack = true) :
    (fn.scope ≠ RecordScope.BACKWARD_FUNCTION →
      (entryCallback env fn w).1.stack =
        some (env.callstackStr
          (if env.prepare_current = [] then env.prepare_python
           else env.prepare_current))) ∧
    (fn.scope = RecordScope.BACKWARD_FUNCTION →
      (entryCallback env fn w).1.stack = none) := by
  constructor <;> intro hsc <;>
    simp [entryCallback, getProfilerTLSState, hslot, hmode, hstack, hsc,
      next_correlation_id, getTimeUs]

/-- The session state right after the sample `enableProfiler`. -/
def demoSt1 : KinetoThreadLocalState :=
  demoW1.slot.getD { config := demoConfig }

/-- C7 witness: on the sample run the entry callback attaches the primary
prepared call stack. -/
theorem entryCallback_stack_witness :
    (entryCallback demoEnv demoFn demoW1).1.stack = some ["model.py:10"] :=
  (entryCallback_stack demoEnv demoFn demoW1 demoSt1 rfl rfl rfl).1 (by decide)

/-- C6: `shapesToStr` renders a shape list as a bracketed list of bracketed
lists with `", "` separators, and on `[[2,3],[3,4]]` returns exactly
`"[[2, 3], [3, 4]]"`. -/
theorem shapesToStr_renders :
    (∀ shapes : List (List Int),
      shapesToStr shapes =
        "[" ++ joinComma (shapes.map fun s =>
          "[" ++ joinComma (s.map fun d => toString d) ++ "]") ++ "]") ∧
    shapesToStr [[2, 3], [3, 4]] = "[[2, 3], [3, 4]]" := by
  constructor
  · intro shapes
    rw [shapesToStr, strListJoin_eq]
    simp only [strListJoin_eq]
  · rfl

theorem runOp_not_registered (env : Env) (fn : RecordFunction) (w : World)
    (h : w.callbacksRegistered = false) : runOp env w fn = w := by
  simp [runOp, h]

theorem runOp_slot_none (env : Env) (fn : RecordFunction) (w : World)
    (h : w.slot = none) : runOp env w fn = w := by
  by_cases hreg : w.callbacksRegistered
  · simp [runOp, hreg, entryCallback, exitCallback, getProfilerTLSState, h]
  · exact runOp_not_registered env fn w (by simpa using hreg)

theorem runOp_not_kineto (env : Env) (fn : RecordFunction) (w : World)
    (st : KinetoThreadLocalState) (h : w.slot = some st)
    (hk : st.config.state ≠ ProfilerState.KINETO) : runOp env w fn = w := by
  by_cases hreg : w.callbacksRegistered
  · simp [runOp, hreg, entryCallback, exitCallback, getProfilerTLSState, h, hk]
  · exact runOp_not_registered env fn w (by simpa using hreg)

/-- Instrumented operations never touch the transferred-trace list. -/
theorem runOp_transferred (env : Env) (fn : RecordFunction) (w : World) :
    (runOp env w fn).transferred = w.transferred := by
  by_cases hreg : w.callbacksRegistered
  · cases hslot : w.slot with
    | none => rw [runOp_slot_none env fn w hslot]
    | some st =>
      by_cases hk : st.config.state = ProfilerState.KINETO
      · simp only [runOp, hreg, if_true, entryCallback, exitCallback,
          getProfilerTLSState, hslot, hk, if_pos, next_correlation_id,
          getTimeUs, KinetoThreadLocalState.reportClientActivity]
      · rw [runOp_not_kineto env fn w st hslot hk]
  · rw [runOp_not_registered env fn w (by simpa using hreg)]

theorem runOps_transferred (env : Env) (fns : List RecordFunction) (w : World) :
    (runOps env fns w).transferred = w.transferred := by
  induction fns generalizing w with
  | nil => rfl
  | cons fn fns ih =>
    show (runOps env fns (runOp env w fn)).transferred = w.transferred
    rw [ih, runOp_transferred]

/-- Session-buffer invariant for C9: every recorded trace op has its start
time no later than its end time, and the span start time is no later than
the value the monotonic clock would yield now. -/
def worldInv (env : Env) (w : World) : Prop :=
  ∀ st, w.slot = some st →
    st.cpu_trace.spanStartTime ≤ env.clock w.tick ∧
    ∀ op ∈ st.cpu_trace.ops, op.startTime ≤ op.endTime

theorem runOp_worldInv (env : Env) (fn : RecordFunction) (w : World)
    (hm : Monotone env.clock) (h : worldInv env w) :
    worldInv env (runOp env w fn) := by
  by_cases hreg : w.callbacksRegistered
  · cases hslot : w.slot with
    | none => rw [runOp_slot_none env fn w hslot]; exact h
    | some st =>
      by_cases hk : st.config.state = ProfilerState.KINETO
      · intro st' hst'
        simp only [runOp, hreg, if_true, entryCallback, exitCallback,
          getProfilerTLSState, hslot, hk, if_pos, next_correlation_id,
          getTimeUs, KinetoThreadLocalState.reportClientActivity] at hst' ⊢
        injection hst' with hst'
        subst hst'
        obtain ⟨h1, h2⟩ := h st hslot
        refine ⟨le_trans h1 (hm (by omega)), ?_⟩
        intro op hop
        rcases List.mem_append.mp hop with hop | hop
        · exact h2 op hop
        · rw [List.mem_singleton.mp hop]
          exact hm (Nat.le_succ _)
      · rw [runOp_not_kineto env fn w st hslot hk]; exact h
  · rw [runOp_not_registered env fn w (by simpa using hreg)]; exact h

theorem runOps_worldInv (env : Env) (fns : List RecordFunction) (w : World)
    (hm : Monotone env.clock) (h : worldInv env w) :
    worldInv env (runOps env fns w) := by
  induction fns generalizing w with
  | nil => exact h
  | cons fn fns ih =>
    exact ih (runOp env w fn) (runOp_worldInv env fn w hm h)

/-- C10 invariant: the local `kineto_events_` buffer and the CPU trace op
buffer have the same length. -/
def buffersAligned (st : KinetoThreadLocalState) : Bool :=
  st.kineto_events.length == st.cpu_trace.ops.length

theorem runOp_buffersAligned (env : Env) (fn : RecordFunction) (w : World)
    (h : ∀ st, w.slot = some st → buffersAligned st = true) :
    ∀ st', (runOp env w fn).slot = some st' → buffersAligned st' = true := by
  by_cases hreg : w.callbacksRegistered
  · cases hslot : w.slot with
    | none => rw [runOp_slot_none env fn w hslot]; exact h
    | some st =>
      by_cases hk : st.config.state = ProfilerState.KINETO
      · intro st' hst'
        simp only [runOp, hreg, if_true, entryCallback, exitCallback,
          getProfilerTLSState, hslot, hk, if_pos, next_correlation_id,
          getTimeUs, KinetoThreadLocalState.reportClientActivity] at hst'
        injection hst' with hst'
        subst hst'
        have := h st hslot
        simp only [buffersAligned, List.length_append, List.length_singleton,
          beq_iff_eq] at this ⊢
        omega
      · rw [runOp_not_kineto env fn w st hslot hk]; exact h
  · rw [runOp_not_registered env fn w (by simpa using hreg)]; exact h

theorem runOps_buffersAligned (env : Env) (fns : List RecordFunction)
    (w : World) (h : ∀ st, w.slot = some st → buffersAligned st = true) :
    ∀ st', (runOps env fns w).slot = some st' → buffersAligned st' = true := by
  induction fns generalizing w with
  | nil => exact h
  | cons fn fns ih =>
    exact ih (runOp env w fn) (runOp_buffersAligned env fn w h)

/-- All buffers the backend received have well-ordered timestamps: span end
at or after span start, and every op's end at or after its start. -/
def timestampsOk (w : World) : Bool :=
  w.transferred.all fun buf =>
    decide (buf.spanStartTime ≤ buf.spanEndTime) &&
      buf.ops.all fun op => decide (op.startTime ≤ op.endTime)

/-- C9: with a monotonic clock, in any `enable` → ops → `disable` session the
trace buffer handed to the backend has every recorded activity's end
timestamp at or after its start timestamp, and the session span's end
timestamp at or after its start timestamp. -/
theorem profiler_timestamps_ordered (env : Env) (config : ProfilerConfig)
    (activities : Finset ActivityType) (fns : List RecordFunction)
    (w₀ w₁ : World) (hm : Monotone env.clock) (htr : w₀.transferred = [])
    (hen : enableProfiler env config activities w₀ = .ok w₁) :
    ∀ r w₂, disableProfiler env (runOps env fns w₁) = .ok (r, w₂) →
      timestampsOk w₂ = true := by
  intro r w₂ hdis
  have hw₁ := enableProfiler_ok env config activities w₀ w₁ hen
  have hw₁tr : w₁.transferred = [] := by rw [hw₁]; exact htr
  have hinv₁ : worldInv env w₁ := by
    rw [hw₁]
    intro st hst
    simp only [Option.some.injEq] at hst
    subst hst
    exact ⟨hm (Nat.le_succ _), by simp⟩
  have hinv₂ := runOps_worldInv env fns w₁ hm hinv₁
  obtain ⟨st, hst, hkin, hh, hr, hw₂⟩ :=
    disableProfiler_ok env (runOps env fns w₁) r w₂ hdis
  obtain ⟨h1, h2⟩ := hinv₂ st hst
  subst hw₂
  simp only [timestampsOk, runOps_transferred, hw₁tr, List.nil_append,
    List.all_cons, List.all_nil, Bool.and_true, Bool.and_eq_true,
    decide_eq_true_eq, List.all_eq_true]
  exact ⟨h1, fun op hop => h2 op hop⟩

/-- C9 witness: the sample session's transferred buffer has ordered
timestamps. -/
theorem profiler_timestamps_ordered_witness : timestampsOk demoDis.2 = true :=
  profiler_timestamps_ordered demoEnv demoConfig demoActivities [demoFn]
    demoW0 demoW1 (fun _ _ h => h) rfl rfl demoDis.1 demoDis.2 rfl

/-- C10: each `reportClientActivity` appends exactly one `KinetoEvent` and
exactly one trace op, and throughout any `enable` → ops run the local
`kineto_events_` buffer length equals the CPU trace op buffer length. -/
theorem kineto_events_matches_trace_ops :
    (∀ (st : KinetoThreadLocalState) (env : Env) (tick : Nat)
        (fn : RecordFunction) (ctx : KinetoObserverContext),
      (st.reportClientActivity env tick fn ctx).1.kineto_events.length =
          st.kineto_events.length + 1 ∧
        (st.reportClientActivity env tick fn ctx).1.cpu_trace.ops.length =
          st.cpu_trace.ops.length + 1) ∧
    (∀ (env : Env) (config : ProfilerConfig)
        (activities : Finset ActivityType) (fns : List RecordFunction)
        (w₀ w₁ : World),
      enableProfiler env config activities w₀ = .ok w₁ →
      ∀ st, (runOps env fns w₁).slot = some st →
        buffersAligned st = true) := by
  constructor
  · intro st env tick fn ctx
    simp [KinetoThreadLocalState.reportClientActivity]
  · intro env config activities fns w₀ w₁ hen st hst
    refine runOps_buffersAligned env fns w₁ ?_ st hst
    intro st₀ hst₀
    rw [enableProfiler_ok env config activities w₀ w₁ hen] at hst₀
    simp only [Option.some.injEq] at hst₀
    subst hst₀
    rfl

/-- C10 witness: one concrete report appends one entry to each buffer, and
the sample run's state has aligned buffers. -/
theorem kineto_events_matches_trace_ops_witness :
    ((demoSt.reportClientActivity demoEnv 0 demoFn
        {}).1.kineto_events.length = demoSt.kineto_events.length + 1 ∧
      (demoSt.reportClientActivity demoEnv 0 demoFn
        {}).1.cpu_trace.ops.length = demoSt.cpu_trace.ops.length + 1) ∧
    buffersAligned demoSt = true :=
  ⟨kineto_events_matches_trace_ops.1 demoSt demoEnv 0 demoFn {},
   kineto_events_matches_trace_ops.2 demoEnv demoConfig demoActivities
     [demoFn] demoW0 demoW1 rfl demoSt rfl⟩

/-- C1 evidence: on the sample session one operation is recorded into the
session buffer (named "matmul"), the legacy marks and the trace handle are
consolidated into the result, but the result's `events` list is empty — the
source's `KinetoThreadLocalState::events()` is a `// tbd` stub returning an
empty vector, so the buffered `KinetoEvents` never reach the
`ProfilerResult`. -/
theorem disableProfiler_drops_buffered_events :
    demoW2.slot = some demoSt ∧
    demoSt.kineto_events.map KinetoEvent.name_ = ["matmul"] ∧
    demoDis.1.events = [] ∧
    demoDis.1.legacy_events = ["__start_profile", "__stop_profile"] :=
  ⟨rfl, rfl, rfl, rfl⟩

/-- C8 evidence: on the sample run exactly one operation's entry callback
observed an active Kineto-mode state, yet the resulting `ProfilerResult`
contains zero events, again because `events()` is the `// tbd` stub. -/
theorem profilerResult_event_count_mismatch :
    countObserved demoEnv demoW1 [demoFn] = 1 ∧
    (demoDis.1.events.map List.length).sum = 0 :=
  ⟨rfl, rfl⟩

end ProfilerKineto
